import Mathlib

set_option autoImplicit false

namespace VoxlMqttBridge

/-! Shallow embedding of the voxl-mavlink-mqtt-client bridge.

The development translates the connection manager (`src/mqtt_client.cpp`), the
coalescing publish buffer (`src/publish_timer.cpp`), the routing/outbound
pipeline (`src/main.cpp`), the encoder selection (`src/mavlink_json.cpp`) and
the configuration loader (`src/config_file.cpp`) into executable Lean
definitions, and proves the spec-level properties about them.  External
collaborators (the mosquitto broker library, the modal-pipe transport, the
binary payload validators) are modelled as oracle parameters: the embedding
records the calls the code makes to them and takes their results as inputs. -/

/-! ### Connection manager (src/mqtt_client.cpp) -/

/-- The connection-lifecycle state of `MQTTClient`: `mosqInit` models
`m_mosq != nullptr` (whether `mosquitto_new` succeeded in `initialize`), and
`connected` models the `m_connected` flag. -/
structure MqttState where
  mosqInit : Bool
  connected : Bool
deriving DecidableEq, Repr

/-- A call issued to the external mosquitto broker capability. -/
inductive BrokerCall where
  | publishCall (topic : String) (payload : String) (qos : Int)
  | subscribeCall (topic : String) (qos : Int)
  | unsubscribeCall (topic : String)
  | disconnectCall
  | reconnectCall
  | connectCall
deriving DecidableEq, Repr

/-- `MQTTClient::is_connected` (mqtt_client.cpp:163-165): returns `m_connected`. -/
def MQTTClient.is_connected (st : MqttState) : Bool :=
  st.connected

/-- `MQTTClient::publish` (mqtt_client.cpp:106-122).  Returns the boolean result,
the list of calls made to the broker capability, and the client state after the
call.  `brokerOk` stands for `mosquitto_publish` returning `MOSQ_ERR_SUCCESS`.
The early guard `if (!m_mosq || !m_connected) return false;` makes no broker
call and touches no field. -/
def MQTTClient.publish (st : MqttState) (topic payload : String) (qos : Int)
    (brokerOk : Bool) : Bool × List BrokerCall × MqttState :=
  if !st.mosqInit || !st.connected then (false, [], st)
  else (brokerOk, [BrokerCall.publishCall topic payload qos], st)

/-- `MQTTClient::subscribe` (mqtt_client.cpp:124-140), same guard shape as
`publish`; `brokerOk` stands for `mosquitto_subscribe` returning success. -/
def MQTTClient.subscribe (st : MqttState) (topic : String) (qos : Int)
    (brokerOk : Bool) : Bool × List BrokerCall × MqttState :=
  if !st.mosqInit || !st.connected then (false, [], st)
  else (brokerOk, [BrokerCall.subscribeCall topic qos], st)

/-- `MQTTClient::disconnect` (mqtt_client.cpp:97-104): returns `false` with no
broker call when uninitialized, otherwise calls `mosquitto_disconnect` and
returns whether it succeeded (`brokerOk`).  Note that it never writes
`m_connected`: the state component of the result is `st` unchanged in both
branches, exactly as in the source. -/
def MQTTClient.disconnect (st : MqttState) (brokerOk : Bool) :
    Bool × List BrokerCall × MqttState :=
  if !st.mosqInit then (false, [], st)
  else (brokerOk, [BrokerCall.disconnectCall], st)

/-- `MQTTClient::on_connect_wrapper` (mqtt_client.cpp:179-187): sets
`m_connected = (result == 0)` and then invokes the user connect callback. -/
def MQTTClient.on_connect_wrapper (st : MqttState) (result : Int) : MqttState :=
  { st with connected := result = 0 }

/-- `MQTTClient::on_disconnect_wrapper` (mqtt_client.cpp:189-197): sets
`m_connected = false` unconditionally and then invokes the user disconnect
callback (`on_mqtt_disconnect` in main.cpp, which only logs). -/
def MQTTClient.on_disconnect_wrapper (st : MqttState) : MqttState :=
  { st with connected := false }

/-- Outcome of one `mosquitto_loop` call inside `MQTTClient::loop_forever`. -/
inductive LoopRc where
  | success
  | connLost
  | otherErr
deriving DecidableEq, Repr

/-- One iteration of the body of `MQTTClient::loop_forever`
(mqtt_client.cpp:234-248) as a function of the `mosquitto_loop` return code:
the broker calls it makes and whether the loop keeps running.  On
`MOSQ_ERR_CONN_LOST` it sleeps `m_config.reconnect_delay` seconds and then
calls `mosquitto_reconnect` itself; on any other error it breaks out. -/
def MQTTClient.loopStep (rc : LoopRc) : List BrokerCall × Bool :=
  match rc with
  | LoopRc.success => ([], true)
  | LoopRc.connLost => ([BrokerCall.reconnectCall], true)
  | LoopRc.otherErr => ([], false)

/-- One iteration of the supervisor loop in `main` (main.cpp:460-469) as a
function of `g_mqtt_client->is_connected()`: after the 1-second poll sleep, if
the client is not connected it sleeps `g_config.reconnect_delay` seconds and
calls `connect()`; otherwise it makes no broker call.  The loop never exits on
a connection failure. -/
def supervisorStep (connected : Bool) : List BrokerCall :=
  if connected then [] else [BrokerCall.connectCall]

/-! ### Coalescing publish buffer (src/publish_timer.cpp) -/

/-- The `BufferedData` struct (publish_timer.h:21-27); the
`std::chrono::steady_clock::time_point` timestamp is modelled as a `Nat`. -/
structure BufferedData where
  payload : String
  topic : String
  qos : Int
  has_data : Bool
  last_update : Nat
deriving DecidableEq, Repr

/-- The state of `PublishTimer` relevant to buffering: `clientPresent` models
`m_mqtt_client != nullptr`, and `buffered` models the `std::map<int,
BufferedData> m_buffered_data` as an association list whose keys (the pipe
channels) are unique. -/
structure PublishTimerState where
  clientPresent : Bool
  buffered : List (Int × BufferedData)
deriving DecidableEq, Repr

/-- `m_buffered_data[channel] = {...}` on a `std::map`: replace the entry with
key `k` when present, insert it otherwise. -/
def upsert (k : Int) (v : BufferedData) :
    List (Int × BufferedData) → List (Int × BufferedData)
  | [] => [(k, v)]
  | e :: rest => if e.1 = k then (k, v) :: rest else e :: upsert k v rest

/-- `PublishTimer::buffer_data` (publish_timer.cpp:43-52): under the buffer
mutex, overwrite the entry for `channel` with the new payload, topic and qos,
with `has_data = true` and `last_update = now`. -/
def PublishTimer.buffer_data (st : PublishTimerState) (channel : Int)
    (topic payload : String) (qos : Int) (now : Nat) : PublishTimerState :=
  { st with buffered := upsert channel ⟨payload, topic, qos, true, now⟩ st.buffered }

/-- A `m_mqtt_client->publish(topic, payload, qos)` call issued by the flush
pass, tagged with the buffer key (pipe channel) whose entry produced it. -/
structure PublishCall where
  channel : Int
  topic : String
  payload : String
  qos : Int
deriving DecidableEq, Repr

/-- Processing of one buffer entry by the loop body in
`PublishTimer::timer_thread` (publish_timer.cpp:69-82): when the entry has data
and the client pointer is non-null, call `publish` and reset `has_data`;
`pubOk` models the boolean returned by `MQTTClient::publish`, whose value the
timer discards. -/
def flushEntry (clientPresent : Bool) (pubOk : String → String → Int → Bool)
    (e : Int × BufferedData) : (Int × BufferedData) × List PublishCall :=
  if e.2.has_data && clientPresent then
    let _ok := pubOk e.2.topic e.2.payload e.2.qos
    ((e.1, { e.2 with has_data := false }), [⟨e.1, e.2.topic, e.2.payload, e.2.qos⟩])
  else (e, [])

/-- One flush pass of `PublishTimer::timer_thread` (publish_timer.cpp:66-82):
the whole `for (auto& pair : m_buffered_data)` loop executed under the buffer
mutex.  Returns the timer state afterwards and the publish calls issued. -/
def PublishTimer.flush (st : PublishTimerState)
    (pubOk : String → String → Int → Bool) :
    PublishTimerState × List PublishCall :=
  ({ st with buffered := st.buffered.map fun e => (flushEntry st.clientPresent pubOk e).1 },
   st.buffered.flatMap fun e => (flushEntry st.clientPresent pubOk e).2)

/-- One `PublishTimer::buffer_data` invocation (arguments plus the clock
reading) as recorded between two flush passes. -/
structure Update where
  channel : Int
  topic : String
  payload : String
  qos : Int
  now : Nat
deriving DecidableEq, Repr

/-- Apply a sequence of `buffer_data` calls in order. -/
def applyUpdates (st : PublishTimerState) : List Update → PublishTimerState
  | [] => st
  | u :: us =>
      applyUpdates (PublishTimer.buffer_data st u.channel u.topic u.payload u.qos u.now) us

/-- The publish calls of a flush pass that originate from channel `c`. -/
def callsFor (c : Int) (calls : List PublishCall) : List PublishCall :=
  calls.filter fun p => p.channel == c

/-- `m_buffered_data.find(c)` on the association list. -/
def lookupBuf (c : Int) : List (Int × BufferedData) → Option BufferedData
  | [] => none
  | e :: rest => if e.1 = c then some e.2 else lookupBuf c rest

/-- Whether channel `c` has an entry with `has_data = true`. -/
def pendingFor (c : Int) (st : PublishTimerState) : Bool :=
  match lookupBuf c st.buffered with
  | some bd => bd.has_data
  | none => false

/-! ### Outbound pipeline (src/main.cpp, on_mqtt_message) -/

/-- A `pipe_server_write(channel, payload.c_str(), payload.length())` call; the
bytes written are exactly the payload string (its full `length()` bytes,
starting at `c_str() == data()`, so embedded bytes are copied verbatim). -/
structure PipeWrite where
  channel : Int
  bytes : String
deriving DecidableEq, Repr

/-- `on_mqtt_message` (main.cpp:179-210): under the subscribe mutex, look the
topic up in `g_topic_to_pipe`; when found, look the pipe name up in
`g_subscribe_pipes`; when found, issue exactly one `pipe_server_write` of the
raw payload to that channel.  Both `std::map`s are modelled as association
lists and `find` as `List.lookup`.  A failed write is only logged; no second
write occurs. -/
def on_mqtt_message (topicToPipe : List (String × String))
    (subscribePipes : List (String × Int)) (topic payload : String) :
    List PipeWrite :=
  match topicToPipe.lookup topic with
  | none => []
  | some pipeName =>
    match subscribePipes.lookup pipeName with
    | none => []
    | some ch => [⟨ch, payload⟩]

/-! ### Encoder selection (src/mavlink_json.cpp, src/main.cpp) -/

/-- Whether `pat` is a prefix of `s` (character lists). -/
def charsStartsWith : List Char → List Char → Bool
  | [], _ => true
  | _ :: _, [] => false
  | a :: as, b :: bs => a == b && charsStartsWith as bs

/-- Whether `pat` occurs as a contiguous run inside `s` (character lists). -/
def charsContainsRun (pat : List Char) : List Char → Bool
  | [] => charsStartsWith pat []
  | c :: cs => charsStartsWith pat (c :: cs) || charsContainsRun pat cs

/-- `pipe_name.find(pat) != std::string::npos`: substring containment. -/
def strContains (s pat : String) : Bool :=
  charsContainsRun pat.toList s.toList

/-- The guarded VIO attempt of `parse_pipe_data_to_json`
(mavlink_json.cpp:302-307): `parse_vio_to_json` runs only when the pipe name
contains `"vvhub_aligned_vio"`.  `vio` is the oracle for its outcome on the
current bytes: `some out` when `pipe_validate_vio_data_t` accepts them and the
JSON conversion yields `out`, `none` when it fails. -/
def tryVio (pipe_name : String) (vio : Option String) : Option String :=
  if strContains pipe_name "vvhub_aligned_vio" then vio else none

/-- The guarded IMU attempt of `parse_pipe_data_to_json`
(mavlink_json.cpp:309-314): `parse_imu_to_json` runs only when the pipe name
contains `"imu_apps"`. -/
def tryImu (pipe_name : String) (imu : Option String) : Option String :=
  if strContains pipe_name "imu_apps" then imu else none

/-- `parse_pipe_data_to_json` (mavlink_json.cpp:300-341): try the VIO encoder
when the name matches, then the IMU encoder when the name matches, then the
generic MAVLink encoder (`mav` oracle), each early-returning `(true, output)`
on success; when all fail, set the output to the raw-JSON wrapper built at
lines 322-339 (`rawJson`) and return `false`. -/
def parse_pipe_data_to_json (pipe_name : String) (vio imu mav : Option String)
    (rawJson : String) : Bool × String :=
  match tryVio pipe_name vio with
  | some out => (true, out)
  | none =>
    match tryImu pipe_name imu with
    | some out => (true, out)
    | none =>
      match mav with
      | some out => (true, out)
      | none => (false, rawJson)

/-- The payload selection of `pipe_data_callback` (main.cpp:128-134): the
payload is the encoder output when `parse_pipe_data_to_json` returns true, and
otherwise is overwritten with the raw bytes `std::string(data, bytes)`
(discarding the raw-JSON wrapper the parser left in `json_output`). -/
def pipe_data_callback_payload (pipe_name raw : String)
    (vio imu mav : Option String) (rawJson : String) : String :=
  let r := parse_pipe_data_to_json pipe_name vio imu mav rawJson
  if r.1 then r.2 else raw

/-- Modelled from the spec (§4.4): the encoder-selection policy stated as a
priority list — the domain-specific encoders whose pipe-name pattern matches,
in order VIO then IMU, followed by the generic MAVLink encoder; the first
successful attempt provides the payload and the raw bytes are the final
fallback. -/
def specEncoderAttempts (pipe_name : String) (vio imu mav : Option String) :
    List (Option String) :=
  (if strContains pipe_name "vvhub_aligned_vio" then [vio] else []) ++
    (if strContains pipe_name "imu_apps" then [imu] else []) ++ [mav]

/-- Modelled from the spec (§4.4): the published payload is the first encoder
success in priority order, or the raw bytes unmodified when every attempted
encoder fails. -/
def specEncoderSelection (pipe_name raw : String)
    (vio imu mav : Option String) : String :=
  (((specEncoderAttempts pipe_name vio imu mav).filterMap id).headD raw)

/-! ### Configuration loader (src/config_file.cpp) -/

/-- `mqtt_topic_config_t`: one route entry of a topic section. -/
structure TopicConfig where
  topic : String
  pipe_name : String
  qos : Int
deriving DecidableEq, Repr

/-- `mqtt_config_t`: the configuration record filled in by `load_config`. -/
structure MqttConfig where
  broker_host : String
  broker_port : Int
  client_id : String
  username : String
  password : String
  use_tls : Bool
  ca_cert_path : String
  cert_path : String
  key_path : String
  keepalive : Int
  reconnect_delay : Int
  publish_topics : List TopicConfig
  subscribe_topics : List TopicConfig
deriving DecidableEq, Repr

/-- `set_default_config` (config_file.cpp:44-86), including the default route
lists it pushes. -/
def set_default_config : MqttConfig :=
  { broker_host := "localhost"
    broker_port := 1883
    client_id := "voxl-mavlink-mqtt-client"
    username := ""
    password := ""
    use_tls := false
    ca_cert_path := ""
    cert_path := ""
    key_path := ""
    keepalive := 60
    reconnect_delay := 5
    publish_topics :=
      [⟨"voxl/vio", "vvhub_aligned_vio", 0⟩,
       ⟨"voxl/battery", "/run/mpa/mavlink_sys_status/", 0⟩,
       ⟨"voxl/heartbeat", "mavlink_ap_heartbeat", 0⟩]
    subscribe_topics := [⟨"voxl/offboard_cmd", "offboard_mqtt_cmd", 0⟩] }

/-- `trim` (config_file.cpp:88-93): strip leading and trailing space
characters (`find_first_not_of(' ')` / `find_last_not_of(' ')`). -/
def trim (s : String) : String :=
  ⟨((s.toList.dropWhile fun c => c = ' ').reverse.dropWhile fun c => c = ' ').reverse⟩

/-- `parse_bool` (config_file.cpp:95-99): lowercase the value and compare with
the accepted truthy spellings. -/
def parse_bool (value : String) : Bool :=
  let lower := value.toLower
  lower == "true" || lower == "1" || lower == "yes" || lower == "on"

/-- `std::stoi`: skip leading whitespace, accept an optional sign, then
base-10 digits; `none` models the `std::invalid_argument` exception thrown
when no digit is found (trailing non-digits are ignored, as in the C++
function). -/
def stoi (s : String) : Option Int :=
  let t := s.toList.dropWhile fun c =>
    c == ' ' || c == '\t' || c == '\n' || c == '\r'
  let signed : Bool × List Char :=
    match t with
    | '-' :: rest => (true, rest)
    | '+' :: rest => (false, rest)
    | _ => (false, t)
  let ds := signed.2.takeWhile Char.isDigit
  if ds.isEmpty then none
  else
    let n : Nat := ds.foldl (fun acc c => acc * 10 + (c.toNat - 48)) 0
    some (if signed.1 then -(n : Int) else (n : Int))

/-- `line.find('=')` followed by the two `substr` calls
(config_file.cpp:139-143): `none` when the line has no `=`, otherwise the text
before the first `=` and the text after it. -/
def splitAtFirstEq (line : String) : Option (String × String) :=
  match line.toList.findIdx? (fun c => c = '=') with
  | none => none
  | some i => some (⟨line.toList.take i⟩, ⟨line.toList.drop (i + 1)⟩)

/-- The quote-stripping step (config_file.cpp:145-147):
`if (value.front() == quote && value.back() == quote) value = value.substr(1,
value.length() - 2)`.  In the C++ source `front()`/`back()` are evaluated
unconditionally at this point; here `String.front` of the empty string is a
total stand-in for that access (the reachability of the empty-value access is
claim C10). -/
def stripQuotes (value : String) : String :=
  if value.front == '"' && value.back == '"' then
    ⟨(value.toList.drop 1).dropLast⟩
  else value

/-- The parsing state carried across lines of the `load_config` loop
(config_file.cpp:110-113): the configuration being filled, the section flags,
and the `current_topic` record built field by field. -/
structure ParseState where
  cfg : MqttConfig
  current : TopicConfig
  in_publish : Bool
  in_subscribe : Bool
deriving DecidableEq, Repr

/-- One iteration of the `load_config` line loop (config_file.cpp:115-192).
`Except.error` models an uncaught exception escaping `load_config`
(`std::stoi` throwing `std::invalid_argument` on an unparsable number), which
aborts the process.  All other malformed lines fall through some branch and
are skipped. -/
def processLine (st : ParseState) (rawLine : String) : Except String ParseState :=
  let line := trim rawLine
  if line.isEmpty then Except.ok st
  else if line.front == '#' then Except.ok st
  else if line == "[publish_topics]" then
    Except.ok { st with in_publish := true, in_subscribe := false,
                        cfg := { st.cfg with publish_topics := [] } }
  else if line == "[subscribe_topics]" then
    Except.ok { st with in_subscribe := true, in_publish := false,
                        cfg := { st.cfg with subscribe_topics := [] } }
  else if line.front == '[' && line.back == ']' then
    Except.ok { st with in_publish := false, in_subscribe := false }
  else
    match splitAtFirstEq line with
    | none => Except.ok st
    | some (before, after) =>
      let key := trim before
      let value := stripQuotes (trim after)
      if st.in_publish then
        if key == "topic" then
          Except.ok { st with current := { st.current with topic := value } }
        else if key == "pipe_name" then
          Except.ok { st with current := { st.current with pipe_name := value } }
        else if key == "qos" then
          match stoi value with
          | none => Except.error "std::invalid_argument from std::stoi"
          | some q =>
            let r := { st.current with qos := q }
            Except.ok { st with current := r,
                                cfg := { st.cfg with
                                  publish_topics := st.cfg.publish_topics ++ [r] } }
        else Except.ok st
      else if st.in_subscribe then
        if key == "topic" then
          Except.ok { st with current := { st.current with topic := value } }
        else if key == "pipe_name" then
          Except.ok { st with current := { st.current with pipe_name := value } }
        else if key == "qos" then
          match stoi value with
          | none => Except.error "std::invalid_argument from std::stoi"
          | some q =>
            let r := { st.current with qos := q }
            Except.ok { st with current := r,
                                cfg := { st.cfg with
                                  subscribe_topics := st.cfg.subscribe_topics ++ [r] } }
        else Except.ok st
      else
        if key == "broker_host" then
          Except.ok { st with cfg := { st.cfg with broker_host := value } }
        else if key == "broker_port" then
          match stoi value with
          | none => Except.error "std::invalid_argument from std::stoi"
          | some n => Except.ok { st with cfg := { st.cfg with broker_port := n } }
        else if key == "client_id" then
          Except.ok { st with cfg := { st.cfg with client_id := value } }
        else if key == "username" then
          Except.ok { st with cfg := { st.cfg with username := value } }
        else if key == "password" then
          Except.ok { st with cfg := { st.cfg with password := value } }
        else if key == "use_tls" then
          Except.ok { st with cfg := { st.cfg with use_tls := parse_bool value } }
        else if key == "ca_cert_path" then
          Except.ok { st with cfg := { st.cfg with ca_cert_path := value } }
        else if key == "cert_path" then
          Except.ok { st with cfg := { st.cfg with cert_path := value } }
        else if key == "key_path" then
          Except.ok { st with cfg := { st.cfg with key_path := value } }
        else if key == "keepalive" then
          match stoi value with
          | none => Except.error "std::invalid_argument from std::stoi"
          | some n => Except.ok { st with cfg := { st.cfg with keepalive := n } }
        else if key == "reconnect_delay" then
          match stoi value with
          | none => Except.error "std::invalid_argument from std::stoi"
          | some n => Except.ok { st with cfg := { st.cfg with reconnect_delay := n } }
        else Except.ok st

/-- The `while (std::getline(file, line))` loop of `load_config`. -/
def processLines (st : ParseState) : List String → Except String ParseState
  | [] => Except.ok st
  | l :: ls =>
    match processLine st l with
    | Except.error e => Except.error e
    | Except.ok st₂ => processLines st₂ ls

/-- `load_config` (config_file.cpp:101-196) on the lines of an existing
configuration file: apply the defaults, run the line loop, and return the
filled configuration; `Except.ok` corresponds to the `return 0` success path
and `Except.error` to an uncaught `std::stoi` exception aborting the process.
The `current_topic` record starts with empty strings (value-initialized
`std::string` members) and qos 0. -/
def load_config (lines : List String) : Except String MqttConfig :=
  match processLines ⟨set_default_config, ⟨"", "", 0⟩, false, false⟩ lines with
  | Except.ok st => Except.ok st.cfg
  | Except.error e => Except.error e

/-- Mirrors the control flow of the `load_config` loop body
(config_file.cpp:115-144) up to the quote-stripping check of line 145: returns
`some value` exactly when execution reaches the evaluation of
`value.front()`, where `value` is the trimmed right-hand side of the `=`;
returns `none` when the line is skipped or handled before that point. -/
def valueAtQuoteCheck (rawLine : String) : Option String :=
  let line := trim rawLine
  if line.isEmpty then none
  else if line.front == '#' then none
  else if line == "[publish_topics]" then none
  else if line == "[subscribe_topics]" then none
  else if line.front == '[' && line.back == ']' then none
  else
    match splitAtFirstEq line with
    | none => none
    | some (_, after) => some (trim after)

/-! ### Startup sequence (src/main.cpp, main) -/

/-- Outcome of the startup portion of `main`: either an early `return` with an
exit code or reaching the supervisor loop (`main_running = 1`). -/
inductive StartupResult where
  | exitCode (code : Int)
  | enterMainLoop
deriving DecidableEq, Repr

/-- Results of the external calls the no-CLI-argument path of `main` makes
before its supervisor loop (main.cpp:400-456): `kill_existing_process` not
failing hard, `load_config` succeeding, `MQTTClient::initialize` succeeding,
`setup_pipes` succeeding, and the initial `connect()` succeeding. -/
structure StartupEnv where
  killExistingOk : Bool
  loadConfigOk : Bool
  mqttInitOk : Bool
  setupPipesOk : Bool
  connectOk : Bool
deriving DecidableEq, Repr

/-- The startup decision sequence of `main` (main.cpp:400-456) with no CLI
arguments: each failing step returns `-1`; in particular a failed initial
`g_mqtt_client->connect()` (main.cpp:443-448) cleans up and returns `-1`
instead of entering the supervisor loop. -/
def mainStartup (e : StartupEnv) : StartupResult :=
  if !e.killExistingOk then StartupResult.exitCode (-1)
  else if !e.loadConfigOk then StartupResult.exitCode (-1)
  else if !e.mqttInitOk then StartupResult.exitCode (-1)
  else if !e.setupPipesOk then StartupResult.exitCode (-1)
  else if !e.connectOk then StartupResult.exitCode (-1)
  else StartupResult.enterMainLoop

/-! ### Buffer lemmas -/

theorem lookupBuf_upsert (k c : Int) (v : BufferedData)
    (l : List (Int × BufferedData)) :
    lookupBuf c (upsert k v l) = if k = c then some v else lookupBuf c l := by
  induction l with
  | nil => simp [upsert, lookupBuf]
  | cons e rest ih =>
    simp only [upsert]
    by_cases hek : e.1 = k
    · rw [if_pos hek]
      simp only [lookupBuf]
      by_cases hkc : k = c
      · simp [hkc]
      · have hec : ¬ e.1 = c := by rw [hek]; exact hkc
        simp [hkc, hec]
    · rw [if_neg hek]
      simp only [lookupBuf, ih]
      by_cases hec : e.1 = c
      · have hkc : ¬ k = c := fun h => hek (by rw [hec, h])
        simp [hec, hkc]
      · simp [hec]

theorem mem_keys_upsert (a k : Int) (v : BufferedData)
    (l : List (Int × BufferedData)) :
    a ∈ (upsert k v l).map Prod.fst ↔ a = k ∨ a ∈ l.map Prod.fst := by
  induction l with
  | nil => simp [upsert]
  | cons e rest ih =>
    simp only [upsert]
    by_cases hek : e.1 = k
    · rw [if_pos hek]
      simp only [List.map_cons, List.mem_cons, hek]
      tauto
    · rw [if_neg hek]
      simp only [List.map_cons, List.mem_cons, ih]
      tauto


/-- C3: a `publish` or `subscribe` call made while the client is uninitialized
(`m_mosq == nullptr`) or not connected (`m_connected == false`) returns failure,
makes no broker-capability publish/subscribe call, and leaves every state field
unchanged. -/
theorem publish_subscribe_noop_when_not_connected (st : MqttState)
    (topic payload : String) (qos : Int) (brokerOk : Bool)
    (h : st.mosqInit = false ∨ st.connected = false) :
    MQTTClient.publish st topic payload qos brokerOk = (false, [], st) ∧
    MQTTClient.subscribe st topic qos brokerOk = (false, [], st) := by
  rcases h with h | h <;>
    simp [MQTTClient.publish, MQTTClient.subscribe, h]

/-- Witness for C3 at a concrete disconnected state. -/
theorem publish_subscribe_noop_when_not_connected_witness :
    MQTTClient.publish ⟨true, false⟩ "voxl/battery" "8%" 0 true
      = (false, [], ⟨true, false⟩) ∧
    MQTTClient.subscribe ⟨true, false⟩ "voxl/battery" 0 true
      = (false, [], ⟨true, false⟩) :=
  publish_subscribe_noop_when_not_connected ⟨true, false⟩ "voxl/battery" "8%" 0
    true (Or.inr rfl)

/-- C4 counterexample: the claim that the Connection Manager never initiates a
reconnect attempt itself is false — when `mosquitto_loop` reports
`MOSQ_ERR_CONN_LOST`, the body of `MQTTClient::loop_forever`
(mqtt_client.cpp:238-241) sleeps the reconnect delay and then calls
`mosquitto_reconnect` from inside the MQTT client. -/
theorem loop_forever_reconnects_on_conn_lost :
    BrokerCall.reconnectCall ∈ (MQTTClient.loopStep LoopRc.connLost).1 := by
  decide

/-- C4 amended: reconnection after connection loss is initiated from two
places — the MQTT client's own I/O loop calls `mosquitto_reconnect` (after
sleeping the reconnect delay) when `mosquitto_loop` returns
`MOSQ_ERR_CONN_LOST`, and the supervisor loop in `main` calls `connect()`
(after sleeping the reconnect delay) whenever it observes the client
disconnected; neither initiates anything while the connection is healthy. -/
theorem reconnect_initiated_by_both_loops :
    (MQTTClient.loopStep LoopRc.connLost).1 = [BrokerCall.reconnectCall] ∧
    supervisorStep false = [BrokerCall.connectCall] ∧
    (MQTTClient.loopStep LoopRc.success).1 = [] ∧
    supervisorStep true = [] :=
  ⟨rfl, rfl, rfl, rfl⟩

/-- C5 counterexample: starting from an initialized, connected client,
`disconnect()` returns with `is_connected()` still `true` — `disconnect` never
writes `m_connected`, so the state is not `Disconnected` immediately after the
call returns, refuting the claim for the prior state `Connected`. -/
theorem disconnect_leaves_connected_flag :
    ¬ (MQTTClient.is_connected (MQTTClient.disconnect ⟨true, true⟩ true).2.2
        = false) := by
  decide

/-- C5 amended: `disconnect()` itself leaves every state field unchanged for
every prior state (it only issues `mosquitto_disconnect` when initialized); the
transition to `Disconnected` is performed by the asynchronous disconnect
callback `on_disconnect_wrapper`, which sets `m_connected` to `false`
regardless of the prior state. -/
theorem disconnect_state_change_only_in_callback (st : MqttState)
    (brokerOk : Bool) :
    (MQTTClient.disconnect st brokerOk).2.2 = st ∧
    (MQTTClient.on_disconnect_wrapper st).connected = false := by
  refine ⟨?_, rfl⟩
  unfold MQTTClient.disconnect
  split <;> rfl

theorem upsert_keys_nodup (k : Int) (v : BufferedData)
    (l : List (Int × BufferedData)) (h : (l.map Prod.fst).Nodup) :
    ((upsert k v l).map Prod.fst).Nodup := by
  induction l with
  | nil => simp [upsert]
  | cons e rest ih =>
    simp only [List.map_cons, List.nodup_cons] at h
    simp only [upsert]
    by_cases hek : e.1 = k
    · rw [if_pos hek]
      simp only [List.map_cons, List.nodup_cons]
      exact ⟨hek ▸ h.1, h.2⟩
    · rw [if_neg hek]
      simp only [List.map_cons, List.nodup_cons]
      refine ⟨?_, ih h.2⟩
      intro hmem
      rcases (mem_keys_upsert e.1 k v rest).mp hmem with h1 | h1
      · exact hek h1
      · exact h.1 h1

theorem applyUpdates_clientPresent (st : PublishTimerState) (us : List Update) :
    (applyUpdates st us).clientPresent = st.clientPresent := by
  induction us generalizing st with
  | nil => rfl
  | cons u us ih =>
    simp only [applyUpdates]
    rw [ih]
    rfl

theorem applyUpdates_keys_nodup (st : PublishTimerState) (us : List Update)
    (h : (st.buffered.map Prod.fst).Nodup) :
    ((applyUpdates st us).buffered.map Prod.fst).Nodup := by
  induction us generalizing st with
  | nil => exact h
  | cons u us ih =>
    simp only [applyUpdates]
    exact ih _ (upsert_keys_nodup _ _ _ h)

theorem applyUpdates_lookup (st : PublishTimerState) (us : List Update)
    (c : Int) :
    lookupBuf c (applyUpdates st us).buffered =
      match (us.filter fun u => u.channel == c).getLast? with
      | some u => some ⟨u.payload, u.topic, u.qos, true, u.now⟩
      | none => lookupBuf c st.buffered := by
  induction us generalizing st with
  | nil => rfl
  | cons u us ih =>
    simp only [applyUpdates]
    rw [ih]
    by_cases h : u.channel = c
    · have hf : ((u :: us).filter fun x => x.channel == c)
          = u :: (us.filter fun x => x.channel == c) := by
        simp [List.filter_cons, h]
      cases hrest : us.filter fun x => x.channel == c with
      | nil =>
        rw [hf, hrest]
        show lookupBuf c
          (upsert u.channel ⟨u.payload, u.topic, u.qos, true, u.now⟩ st.buffered)
            = _
        rw [lookupBuf_upsert, if_pos h]
        rfl
      | cons w ws =>
        cases hsome : (w :: ws).getLast? with
        | none => exact absurd (List.getLast?_eq_none_iff.mp hsome) (by simp)
        | some a =>
          rw [hf, hrest, List.getLast?_cons_cons, hsome]
    · have hf : ((u :: us).filter fun x => x.channel == c)
          = us.filter fun x => x.channel == c := by
        simp [List.filter_cons, h]
      rw [hf]
      have hb : lookupBuf c
          (PublishTimer.buffer_data st u.channel u.topic u.payload u.qos u.now).buffered
            = lookupBuf c st.buffered := by
        show lookupBuf c (upsert u.channel _ st.buffered) = _
        rw [lookupBuf_upsert, if_neg h]
      rw [hb]

theorem callsFor_append (c : Int) (a b : List PublishCall) :
    callsFor c (a ++ b) = callsFor c a ++ callsFor c b :=
  List.filter_append _ _

theorem callsFor_flushList_not_mem (client : Bool)
    (pubOk : String → String → Int → Bool) (c : Int)
    (l : List (Int × BufferedData)) (h : c ∉ l.map Prod.fst) :
    callsFor c (l.flatMap fun e => (flushEntry client pubOk e).2) = [] := by
  induction l with
  | nil => rfl
  | cons e rest ih =>
    simp only [List.map_cons, List.mem_cons] at h
    push_neg at h
    rw [List.flatMap_cons, callsFor_append, ih h.2]
    have hec : ¬ e.1 = c := fun hh => h.1 hh.symm
    cases hd : e.2.has_data && client
    · simp [flushEntry, hd, callsFor]
    · simp [flushEntry, hd, callsFor, hec]

theorem callsFor_flushList (client : Bool)
    (pubOk : String → String → Int → Bool) (c : Int)
    (l : List (Int × BufferedData)) (hnd : (l.map Prod.fst).Nodup) :
    callsFor c (l.flatMap fun e => (flushEntry client pubOk e).2) =
      match lookupBuf c l with
      | some bd =>
        if bd.has_data && client then [⟨c, bd.topic, bd.payload, bd.qos⟩] else []
      | none => [] := by
  induction l with
  | nil => rfl
  | cons e rest ih =>
    simp only [List.map_cons, List.nodup_cons] at hnd
    rw [List.flatMap_cons, callsFor_append]
    by_cases hec : e.1 = c
    · have hcn : c ∉ rest.map Prod.fst := hec ▸ hnd.1
      rw [callsFor_flushList_not_mem client pubOk c rest hcn]
      have hl : lookupBuf c (e :: rest) = some e.2 := by simp [lookupBuf, hec]
      rw [hl]
      cases hd : e.2.has_data && client
      · simp [flushEntry, hd, callsFor]
      · simp [flushEntry, hd, callsFor, hec]
    · have hl : lookupBuf c (e :: rest) = lookupBuf c rest := by
        simp [lookupBuf, hec]
      rw [hl, ih hnd.2]
      have hh : callsFor c (flushEntry client pubOk e).2 = [] := by
        cases hd : e.2.has_data && client
        · simp [flushEntry, hd, callsFor]
        · simp [flushEntry, hd, callsFor, hec]
      rw [hh, List.nil_append]

/-! ### Theorems for the remaining claims -/

/-- C1: for every channel, if N ≥ 1 `buffer_data` calls for that channel occur
between two consecutive flush passes, the next flush pass issues exactly one
publish call for that channel carrying the topic, payload and qos of the last
of those calls (intermediate values dropped); if zero calls occurred since the
last flush (so the channel has no pending entry), the next flush issues no
publish call for that channel.  `hkeys` is the `std::map` key-uniqueness
invariant; `hclient` says the timer was built with a non-null MQTT client. -/
theorem flush_publishes_last_buffered_value (st : PublishTimerState)
    (us : List Update) (c : Int) (pubOk : String → String → Int → Bool)
    (hkeys : (st.buffered.map Prod.fst).Nodup)
    (hclient : st.clientPresent = true)
    (hzero : (us.filter fun u => u.channel == c) = [] → pendingFor c st = false) :
    callsFor c (PublishTimer.flush (applyUpdates st us) pubOk).2 =
      match (us.filter fun u => u.channel == c).getLast? with
      | some u => [⟨c, u.topic, u.payload, u.qos⟩]
      | none => [] := by
  have hnd := applyUpdates_keys_nodup st us hkeys
  have hcp := applyUpdates_clientPresent st us
  show callsFor c ((applyUpdates st us).buffered.flatMap fun e =>
    (flushEntry (applyUpdates st us).clientPresent pubOk e).2) = _
  rw [callsFor_flushList _ _ _ _ hnd, applyUpdates_lookup st us c]
  cases hl : (us.filter fun u => u.channel == c).getLast? with
  | some u => simp [hcp, hclient]
  | none =>
    have hfz := hzero (List.getLast?_eq_none_iff.mp hl)
    unfold pendingFor at hfz
    cases hb : lookupBuf c st.buffered with
    | none => simp
    | some bd =>
      rw [hb] at hfz
      have hfz2 : bd.has_data = false := hfz
      simp [hfz2]

/-- Witness for C1: three updates of "10%", "9%", "8%" for channel 5 within
one interval produce exactly one publish of "8%" at the next flush. -/
theorem flush_publishes_last_buffered_value_witness :
    callsFor 5 (PublishTimer.flush (applyUpdates ⟨true, []⟩
        [⟨5, "voxl/battery", "10%", 0, 0⟩, ⟨5, "voxl/battery", "9%", 0, 1⟩,
         ⟨5, "voxl/battery", "8%", 0, 2⟩]) fun _ _ _ => true).2
      = [⟨5, "voxl/battery", "8%", 0⟩] := by
  have h := flush_publishes_last_buffered_value ⟨true, []⟩
      [⟨5, "voxl/battery", "10%", 0, 0⟩, ⟨5, "voxl/battery", "9%", 0, 1⟩,
       ⟨5, "voxl/battery", "8%", 0, 2⟩] 5 (fun _ _ _ => true)
      (by simp) rfl (fun _ => rfl)
  exact h.trans (by decide)

/-- C8: every entry pending at the start of a flush pass has its `has_data`
flag cleared by the pass whether the publish succeeded or failed (the timer
discards the publish result, so the whole pass is independent of it), and
after the pass every entry in the buffer has `has_data = false`. -/
theorem flush_clears_all_pending (st : PublishTimerState)
    (pubOk pubOk2 : String → String → Int → Bool)
    (hclient : st.clientPresent = true) :
    ((PublishTimer.flush st pubOk).1.buffered.all fun e => !e.2.has_data) = true ∧
    PublishTimer.flush st pubOk = PublishTimer.flush st pubOk2 := by
  constructor
  · rw [List.all_eq_true]
    intro e he
    simp only [PublishTimer.flush, List.mem_map] at he
    obtain ⟨a, _, rfl⟩ := he
    cases hd : a.2.has_data
    · simp [flushEntry, hd, hclient]
    · simp [flushEntry, hd, hclient]
  · rfl

/-- Witness for C8: a failing publish (`pubOk` constantly false) still clears
the pending flag, and the flush outcome equals that with a succeeding one. -/
theorem flush_clears_all_pending_witness :
    ((PublishTimer.flush ⟨true, [(3, ⟨"8%", "voxl/battery", 0, true, 0⟩)]⟩
        fun _ _ _ => false).1.buffered.all fun e => !e.2.has_data) = true ∧
    PublishTimer.flush ⟨true, [(3, ⟨"8%", "voxl/battery", 0, true, 0⟩)]⟩
        (fun _ _ _ => false)
      = PublishTimer.flush ⟨true, [(3, ⟨"8%", "voxl/battery", 0, true, 0⟩)]⟩
        (fun _ _ _ => true) :=
  flush_clears_all_pending ⟨true, [(3, ⟨"8%", "voxl/battery", 0, true, 0⟩)]⟩
    (fun _ _ _ => false) (fun _ _ _ => true) rfl

/-- C2: when a broker message arrives whose topic resolves through the
subscribe routing tables to pipe channel `ch`, `on_mqtt_message` performs
exactly one `pipe_server_write` to that channel and the bytes written are
exactly the payload, untransformed. -/
theorem on_mqtt_message_writes_payload_once
    (topicToPipe : List (String × String)) (subscribePipes : List (String × Int))
    (topic payload pipeName : String) (ch : Int)
    (h1 : topicToPipe.lookup topic = some pipeName)
    (h2 : subscribePipes.lookup pipeName = some ch) :
    on_mqtt_message topicToPipe subscribePipes topic payload = [⟨ch, payload⟩] := by
  simp [on_mqtt_message, h1, h2]

/-- Witness for C2: the broker delivers "ARM" on "voxl/offboard_cmd", mapped
to pipe "offboard_mqtt_cmd" on channel 0: exactly one write of "ARM". -/
theorem on_mqtt_message_writes_payload_once_witness :
    on_mqtt_message [("voxl/offboard_cmd", "offboard_mqtt_cmd")]
      [("offboard_mqtt_cmd", 0)] "voxl/offboard_cmd" "ARM" = [⟨0, "ARM"⟩] :=
  on_mqtt_message_writes_payload_once
    [("voxl/offboard_cmd", "offboard_mqtt_cmd")] [("offboard_mqtt_cmd", 0)]
    "voxl/offboard_cmd" "ARM" "offboard_mqtt_cmd" 0 (by decide) (by decide)

/-- C9: the payload published for an inbound pipe message equals the
spec-stated fixed-priority encoder selection: the VIO encoder when the pipe
name matches its pattern, then the IMU encoder when the name matches its
pattern, then the generic MAVLink encoder, with the raw bytes used unmodified
exactly when every attempted encoder fails. -/
theorem encoder_selection_priority_order (pipe_name raw : String)
    (vio imu mav : Option String) (rawJson : String) :
    pipe_data_callback_payload pipe_name raw vio imu mav rawJson
      = specEncoderSelection pipe_name raw vio imu mav := by
  unfold pipe_data_callback_payload parse_pipe_data_to_json
    specEncoderSelection specEncoderAttempts tryVio tryImu
  by_cases hv : strContains pipe_name "vvhub_aligned_vio" <;>
    by_cases hi : strContains pipe_name "imu_apps" <;>
      cases vio <;> cases imu <;> cases mav <;>
        simp [hv, hi]

/-- C6 (code bug): `load_config` does not skip a route entry whose `qos`
value is unparsable — `std::stoi` throws `std::invalid_argument`, the
exception is uncaught, and the process aborts instead of `load_config`
returning success.  Evaluated at the failing configuration file. -/
theorem load_config_aborts_on_bad_qos :
    load_config ["[publish_topics]", "topic = \"t\"", "pipe_name = \"p\"",
        "qos = abc"]
      = Except.error "std::invalid_argument from std::stoi" := by
  rfl

/-- C7 counterexample: with every earlier startup step succeeding, a failed
initial `connect()` makes `main` return the nonzero exit code `-1`
(main.cpp:443-448) — startup does terminate the process on a first connect
failure, refuting the claim. -/
theorem startup_exits_nonzero_on_connect_failure :
    mainStartup ⟨true, true, true, true, false⟩ = StartupResult.exitCode (-1) ∧
    (-1 : Int) ≠ 0 := by
  decide

/-- C7 amended: an initial `connect()` failure at startup is fatal (`main`
returns `-1`); only once the supervisor loop has been entered is a connection
loss non-fatal, handled by the supervisor sleeping the reconnect delay and
calling `connect()` again rather than exiting. -/
theorem initial_connect_fatal_midsession_retry :
    mainStartup ⟨true, true, true, true, false⟩ = StartupResult.exitCode (-1) ∧
    mainStartup ⟨true, true, true, true, true⟩ = StartupResult.enterMainLoop ∧
    supervisorStep false = [BrokerCall.connectCall] ∧
    supervisorStep true = [] := by
  decide

/-- C10 (code bug): for the configuration line "key=" (whose value is empty
after trimming), the `load_config` loop body reaches the quote-stripping check
of config_file.cpp:145 and evaluates `value.front()` / `value.back()` on an
empty string — an out-of-bounds access the claim says never happens. -/
theorem quote_check_reached_on_empty_value :
    valueAtQuoteCheck "key=" = some "" ∧ valueAtQuoteCheck "key=   " = some "" := by
  decide

end VoxlMqttBridge
